import Mathlib

/-!
# Shallow embedding of the retrieval-augmented context engine

This file models the core of `src/rag_tfidf.py` (knowledge-base indexing,
similarity retrieval and budget-constrained context formatting) together
with the module-level index initialization in `src/patient_risk_pipeline.py`,
and proves or refutes the frozen claims about that code.

Modelling conventions:
* a pandas cell is `Option String` (`none` models a missing value / NaN);
* a pandas row is an association list from column name to cell, and a
  DataFrame is a column list plus a row list;
* Python exceptions are `Except String`;
* real-valued similarity arithmetic is modelled over `ℝ` (the source uses
  floating point; no claim depends on rounding);
* `np.argsort` (ascending; stable on ties for the small arrays involved,
  since NumPy's introsort falls back to insertion sort there and a sort of
  equal keys leaves indices in place) is modelled as a stable ascending
  merge sort of the index list keyed by the score list;
* the HuggingFace encoder called by `EmbeddingIndex` (external library,
  not repository code) is modelled as an abstract `String → List ℝ`
  encoding function covering tokenize → encode → mean-pool → normalize;
* `sklearn`'s `TfidfVectorizer` (the library the source calls) is modelled
  by its documented default behaviour: lowercasing, token pattern `\w\w+`,
  English stop-word removal, alphabetically sorted vocabulary, smooth idf
  `ln((1+n)/(1+df))+1`, l2 row normalization, and the
  "empty vocabulary" `ValueError` when no term survives analysis.
-/

namespace RagSpec

/-- A pandas cell: `none` models NaN (a missing value in the loaded CSV). -/
abbrev Cell := Option String

/-- A pandas row, as an association list from column name to cell. -/
abbrev Row := List (String × Cell)

/-- A pandas DataFrame: column names plus rows (cells keyed by column). -/
structure DataFrame where
  columns : List String
  rows : List Row
deriving DecidableEq

/-- Python `str(x)` applied to a cell value: a missing value (NaN) renders
as the string `"nan"`; a string renders as itself. -/
def cellStr (c : Cell) : String :=
  match c with
  | none => "nan"
  | some s => s

/-- Association-list lookup by column name (the first matching column). -/
def rowLookup (c : String) : Row → Option Cell
  | [] => none
  | kv :: rest => if kv.1 = c then some kv.2 else rowLookup c rest

/-- `str(row.get(col, ""))` from `format_rag_context`: the default `""` is
used only when the column is absent from the row; a present-but-missing
(NaN) cell goes through `str` and becomes `"nan"`. -/
def Row.getStr (r : Row) (c : String) : String :=
  match rowLookup c r with
  | none => ""
  | some cell => cellStr cell

/-- The column `df[c]` as a list of cells, one per row. -/
def DataFrame.col (df : DataFrame) (c : String) : List Cell :=
  df.rows.map (fun r => (rowLookup c r).getD none)

/-- Python `str.strip()` (for the whitespace the corpus can contain):
drop whitespace from both ends. -/
def pyStrip (s : String) : String :=
  ⟨((s.data.dropWhile Char.isWhitespace).reverse.dropWhile Char.isWhitespace).reverse⟩

/-- Python `str.lower()`. -/
def pyLower (s : String) : String := ⟨s.data.map Char.toLower⟩

/-- `_truthy` from `rag_tfidf.py`: `str(v).strip().lower() in ("1", "true",
"t", "yes", "y", "on")`. -/
def truthy (v : String) : Bool :=
  pyLower (pyStrip v) ∈ ["1", "true", "t", "yes", "y", "on"]

/-- `_safe_text_series` from `rag_tfidf.py`: `s.fillna("").astype(str)` —
a missing value becomes the empty string, a string stays itself. -/
def safeTextSeries (cells : List Cell) : List String :=
  cells.map (fun c => c.getD "")

/-! ## sklearn default text analysis (tokenize + stop words) -/

/-- A word character for sklearn's default token pattern `\w\w+`. -/
def isWordChar (c : Char) : Bool := c.isAlphanum || c = '_'

/-- Maximal runs of word characters in a character list (the matches of
`\w+`); `acc` holds the current run, reversed. -/
def wordRuns : List Char → List Char → List (List Char)
  | [], acc => if acc.isEmpty then [] else [acc.reverse]
  | c :: rest, acc =>
      if isWordChar c then wordRuns rest (c :: acc)
      else if acc.isEmpty then wordRuns rest []
      else acc.reverse :: wordRuns rest []

/-- A fragment of sklearn's `ENGLISH_STOP_WORDS` (the full frozenset has
318 entries; no claim in this development depends on the exact membership
of the list, only on its existence in the analysis pipeline). -/
def ENGLISH_STOP_WORDS : List String :=
  ["a", "an", "and", "are", "as", "at", "be", "by", "for", "from", "has",
   "he", "in", "is", "it", "its", "of", "on", "that", "the", "to", "was",
   "were", "will", "with", "this", "these", "those", "or", "not", "no",
   "but", "they", "them", "their", "there", "then", "than", "so", "such"]

/-- sklearn's default analyzer: lowercase the document, take the maximal
word-character runs of length ≥ 2 (`token_pattern=r"(?u)\b\w\w+\b"`), and
drop English stop words (`stop_words="english"`). Word characters are
modelled over the ASCII range (sklearn's `\w` is Unicode); every corpus
and query a theorem below evaluates concretely is ASCII, and the only
query-level fact a claim relies on is that the empty string analyzes to
no tokens, on which every tokenizer agrees. -/
def tokenize (s : String) : List String :=
  (((wordRuns (pyLower s).data []).filter (fun t => 2 ≤ t.length)).map
    (fun cs => String.mk cs)).filter (fun t => t ∉ ENGLISH_STOP_WORDS)

/-- Lexicographic (code-point) order on character lists — Python's string
order, used by `sorted` on the vocabulary. -/
def lexLe : List Char → List Char → Bool
  | [], _ => true
  | _ :: _, [] => false
  | a :: as, b :: bs =>
      if a.toNat < b.toNat then true
      else if b.toNat < a.toNat then false
      else lexLe as bs

/-- Code-point order on strings. -/
def strLe (a b : String) : Bool := lexLe a.data b.data

/-- Insertion of a string into an alphabetically sorted list (structural
recursion, so that concrete vocabularies evaluate in the kernel). -/
def insertSorted (a : String) : List String → List String
  | [] => [a]
  | b :: t => if strLe a b then a :: b :: t else b :: insertSorted a t

/-- Alphabetical insertion sort of a string list. -/
def sortStrings : List String → List String
  | [] => []
  | a :: t => insertSorted a (sortStrings t)

/-- The fitted vocabulary: all distinct analyzed terms of the corpus, in
alphabetical order (sklearn sorts the vocabulary). -/
def vocabOf (docs : List (List String)) : List String :=
  sortStrings docs.flatten.dedup

/-- Occurrences of term `t` in an analyzed document. -/
def termCount (tokens : List String) (t : String) : ℕ := tokens.count t

/-! ## TF-IDF vector space (sklearn `TfidfVectorizer` defaults) -/

/-- Smooth idf of term `t` over the analyzed corpus:
`ln((1 + n) / (1 + df(t))) + 1` (sklearn default `smooth_idf=True`). -/
noncomputable def idfOf (nDocs : ℕ) (docs : List (List String)) (t : String) : ℝ :=
  Real.log ((1 + (nDocs : ℝ)) / (1 + ((docs.filter (fun d => t ∈ d)).length : ℝ))) + 1

/-- Dot product of two vectors (trailing entries of the longer one ignored,
as the source only ever dots equal-length vectors). -/
def dot (u v : List ℝ) : ℝ := (List.zipWith (· * ·) u v).sum

/-- sklearn's l2 row normalization: a zero row is left unchanged (sklearn
substitutes 1 for a zero norm before dividing). -/
noncomputable def l2normalize (v : List ℝ) : List ℝ :=
  let n := Real.sqrt ((v.map (fun x => x ^ 2)).sum)
  if n = 0 then v else v.map (fun x => x / n)

/-- `sklearn.metrics.pairwise.cosine_similarity` of two vectors: the dot
product of their (zero-safe) l2 normalizations. -/
noncomputable def cosineSim (u v : List ℝ) : ℝ := dot (l2normalize u) (l2normalize v)

/-- One tf-idf row: the raw term counts weighted by idf and l2-normalized
(sklearn default `norm="l2"`, `sublinear_tf=False`). -/
noncomputable def tfidfRow (idf : List ℝ) (counts : List ℕ) : List ℝ :=
  l2normalize (List.zipWith (fun (c : ℕ) (w : ℝ) => (c : ℝ) * w) counts idf)

/-- `TfidfVectorizer(stop_words="english").fit_transform(texts)`: analyzes
the texts, fits the vocabulary and idf, and returns the weighted matrix;
raises sklearn's `ValueError` when no term survives analysis (in
particular on an empty text list). -/
noncomputable def tfidfFit (texts : List String) :
    Except String (List String × List ℝ × List (List ℝ)) :=
  let docs := texts.map tokenize
  let vocab := vocabOf docs
  if vocab.isEmpty then
    .error "empty vocabulary; perhaps the documents only contain stop words"
  else
    let idf := vocab.map (idfOf texts.length docs)
    .ok (vocab, idf, docs.map (fun d => tfidfRow idf (vocab.map (termCount d))))

/-- The state built by `TfidfIndex.__init__`: the stored corpus (with its
raw cells, NaN included), the configured columns, and the fitted
vectorizer (vocabulary + idf) with the weighted matrix. -/
structure TfidfModel where
  df : DataFrame
  title_col : String
  text_col : String
  vocab : List String
  idf : List ℝ
  matrix : List (List ℝ)

/-- `TfidfIndex.__init__(df, title_col, text_col)`: keeps the DataFrame
(`reset_index(drop=True)` is the identity in this model, rows are already
positional), runs the text column through `_safe_text_series`, and fits
the vectorizer; the sklearn `ValueError` propagates as `.error`. -/
noncomputable def TfidfIndex.build (df : DataFrame) (tc xc : String) :
    Except String TfidfModel :=
  (tfidfFit (safeTextSeries (df.col xc))).map fun fit =>
    ⟨df, tc, xc, fit.1, fit.2.1, fit.2.2⟩

/-! ## Ranking (`np.argsort(sims)[::-1][:top_k]` and row assembly) -/

/-- `np.argsort(sims)`: the index list of `sims` sorted ascending by key.
The tie order is modelled as stable, which matches NumPy's behaviour on
its small-array insertion-sort path (the regime of every concrete corpus
in this development); for larger arrays NumPy's default quicksort leaves
the tie order unspecified, so only tie-independent consequences of this
definition (length, membership, sortedness — claim C7) transfer to the
program unconditionally, while tie-order consequences (claim C1) are
scoped to the stable regime. -/
noncomputable def argsort (s : List ℝ) : List ℕ :=
  (List.range s.length).mergeSort (fun i j => decide (s.getD i 0 ≤ s.getD j 0))

/-- One row of the DataFrame a `retrieve` method returns: the corpus row
(raw cells) plus the `similarity` and `kb_id` columns the source appends. -/
structure RetrievedRow where
  row : Row
  similarity : ℝ
  kb_id : ℕ

/-- `out = self.df.iloc[idx].copy(); out["similarity"] = sims[idx];
out["kb_id"] = idx` with `idx = np.argsort(sims)[::-1][:top_k]`. -/
noncomputable def rankRetrieve (df : DataFrame) (sims : List ℝ) (k : ℕ) :
    List RetrievedRow :=
  ((argsort sims).reverse.take k).map fun i => ⟨df.rows.getD i [], sims.getD i 0, i⟩

/-- `TfidfIndex.retrieve`: the cosine similarities of the query's tf-idf
vector against every matrix row. -/
noncomputable def TfidfModel.sims (m : TfidfModel) (q : String) : List ℝ :=
  m.matrix.map (cosineSim (tfidfRow m.idf (m.vocab.map (termCount (tokenize q)))))

/-- `TfidfIndex.retrieve(query, top_k)`. -/
noncomputable def TfidfModel.retrieve (m : TfidfModel) (q : String) (k : ℕ) :
    List RetrievedRow :=
  rankRetrieve m.df (m.sims q) k

/-! ## Embedding backend (`EmbeddingIndex`) -/

/-- The state built by `EmbeddingIndex.__init__`: the stored corpus, the
configured columns, the loaded encoder (the external HuggingFace
tokenize → encode → mean-pool → optional-normalize pipeline, modelled as
an abstract encoding function applied identically at build and query
time), and the stacked embedding matrix, one row per corpus row. -/
structure EmbIndex where
  df : DataFrame
  title_col : String
  text_col : String
  encode : String → List ℝ
  matrix : List (List ℝ)

/-- `EmbeddingIndex.__init__`: encodes `_safe_text_series(df[text_col])`
in corpus order into the matrix (`_encode_texts` of an empty text list is
the empty matrix). -/
def EmbIndex.build (df : DataFrame) (tc xc : String) (encode : String → List ℝ) :
    EmbIndex :=
  ⟨df, tc, xc, encode, (safeTextSeries (df.col xc)).map encode⟩

/-- `numpy` `matrix.size`: the total number of entries. -/
def matSize (m : List (List ℝ)) : ℕ := (m.map List.length).sum

/-- `EmbeddingIndex.retrieve(query, top_k)`: on a zero-size matrix returns
`self.df.head(0)` (no rows); otherwise ranks by the dot product of each
matrix row with the encoded query. -/
noncomputable def EmbIndex.retrieve (e : EmbIndex) (q : String) (k : ℕ) :
    List RetrievedRow :=
  if matSize e.matrix = 0 then []
  else rankRetrieve e.df (e.matrix.map (fun row => dot row (e.encode q))) k

/-- The index object `build_index_from_env` returns (duck-typed in the
source: either class, both exposing `retrieve`). -/
inductive RagIndex where
  | tfidf (m : TfidfModel)
  | embeddings (e : EmbIndex)

/-- Dispatch of `.retrieve` over the two index classes (`retrieve_kb`). -/
noncomputable def RagIndex.retrieve (idx : RagIndex) (q : String) (k : ℕ) :
    List RetrievedRow :=
  match idx with
  | .tfidf m => m.retrieve q k
  | .embeddings e => e.retrieve q k

/-- `retrieve_kb(query, index, top_k)` from `rag_tfidf.py`. -/
noncomputable def retrieve_kb (query : String) (index : RagIndex) (top_k : ℕ) :
    List RetrievedRow :=
  index.retrieve query top_k

/-- The stored corpus of an index. -/
def RagIndex.corpus (idx : RagIndex) : DataFrame :=
  match idx with
  | .tfidf m => m.df
  | .embeddings e => e.df

/-! ## `build_index_from_env` and the pipeline's module-level startup -/

/-- The process environment, as an association list (`os.getenv k` is
`none` when `k` is unset). -/
abbrev Env := List (String × String)

/-- `os.getenv`. -/
def getenv (env : Env) (k : String) : Option String := env.lookup k

/-- The resolved title column: `os.getenv("RAG_TITLE_COL", "title")`. -/
def titleColOf (env : Env) : String := (getenv env "RAG_TITLE_COL").getD "title"

/-- The resolved text column: `os.getenv("RAG_TEXT_COL", "text")`. -/
def textColOf (env : Env) : String := (getenv env "RAG_TEXT_COL").getD "text"

/-- The resolved backend mode:
`(os.getenv("RAG_MODE", "tfidf") or "tfidf").strip().lower()` (the `or`
replaces an empty string by the default). -/
def modeOf (env : Env) : String :=
  let m := (getenv env "RAG_MODE").getD "tfidf"
  pyLower (pyStrip (if m = "" then "tfidf" else m))

/-- `build_index_from_env()`, parametrized by the process environment, the
external encoder the embedding backend would load, and the corpus loader
(`_load_kb_csv`, whose I/O failures surface as `.error`). Returns
`.ok none` when retrieval is disabled, `.ok (some index)` on success, and
`.error` where the Python raises. -/
noncomputable def build_index_from_env (env : Env) (encode : String → List ℝ)
    (loader : String → Except String DataFrame) : Except String (Option RagIndex) :=
  if !truthy ((getenv env "RAG_ENABLED").getD "false") then .ok none
  else
    match getenv env "RAG_KB_PATH" with
    | none => .error "RAG_KB_PATH not set"
    | some kb_path =>
      if kb_path = "" then .error "RAG_KB_PATH not set"
      else
        let title_col := titleColOf env
        let text_col := textColOf env
        let mode := modeOf env
        match loader kb_path with
        | .error e => .error e
        | .ok df =>
          if !(df.columns.contains title_col) || !(df.columns.contains text_col) then
            .error ("KB must contain columns: " ++ title_col ++ ", " ++ text_col)
          else if mode = "embeddings" then
            .ok (some (.embeddings (EmbIndex.build df title_col text_col encode)))
          else
            (TfidfIndex.build df title_col text_col).map fun m => some (.tfidf m)

/-- The module-level initialization of `RAG_INDEX` in
`patient_risk_pipeline.py`: `try: RAG_INDEX = build_index_from_env()
except Exception: RAG_INDEX = None` (every construction failure is caught,
logged as a warning, and mapped to `None`). -/
noncomputable def ragStartupIndex (env : Env) (encode : String → List ℝ)
    (loader : String → Except String DataFrame) : Option RagIndex :=
  match build_index_from_env env encode loader with
  | .ok i => i
  | .error _ => none

/-! ## `format_rag_context` -/

/-- The rendered block of one retrieved row:
`f"[{title}]\n{text}".strip()` with `title`/`text` the stripped cell
strings. -/
def renderBlock (r : Row) (tc xc : String) : String :=
  pyStrip ("[" ++ pyStrip (Row.getStr r tc) ++ "]" ++ "\n" ++ pyStrip (Row.getStr r xc))

/-- The `continue` guard of the loop: both stripped strings are empty. -/
def skipRow (r : Row) (tc xc : String) : Prop :=
  pyStrip (Row.getStr r tc) = "" ∧ pyStrip (Row.getStr r xc) = ""

instance (r : Row) (tc xc : String) : Decidable (skipRow r tc xc) :=
  inferInstanceAs (Decidable (_ ∧ _))

/-- The body of the `for _, row in df.iterrows()` loop of
`format_rag_context`, as a recursion over the rows: a row whose stripped
title and text are both empty is skipped (`continue`); a block whose
length would push the running total of block lengths past `max_chars`
stops the loop (`break`); otherwise the block is appended and the total
advanced. Returns the accumulated block list. -/
def formatLoop (tc xc : String) (maxc : ℤ) : List Row → ℤ → List String
  | [], _ => []
  | r :: rest, total =>
      if skipRow r tc xc then formatLoop tc xc maxc rest total
      else if maxc < total + ((renderBlock r tc xc).length : ℤ) then []
      else renderBlock r tc xc :: formatLoop tc xc maxc rest (total + ((renderBlock r tc xc).length : ℤ))

/-- The blocks `format_rag_context` accumulates for a DataFrame. -/
def contextBlocks (df : DataFrame) (maxc : ℤ) (tc xc : String) : List String :=
  formatLoop tc xc maxc df.rows 0

/-- `format_rag_context(df, max_chars, title_col, text_col)` (the
`None`/empty-DataFrame guard, the block loop, and the final join under the
`"RELEVANT CONTEXT:"` header). -/
def format_rag_context (df : DataFrame) (maxc : ℤ) (tc xc : String) : String :=
  if df.rows.isEmpty then ""
  else
    let blocks := contextBlocks df maxc tc xc
    if blocks.isEmpty then ""
    else "RELEVANT CONTEXT:\n\n" ++ String.intercalate "\n\n---\n\n" blocks

/-! ## Spec-side definitions (for refinement-style comparison only) -/

/-- Modelled from the spec (§4.6): every rendered nonempty block of the
ranked rows, in order, with no budget applied. -/
def allBlocks (df : DataFrame) (tc xc : String) : List String :=
  df.rows.filterMap fun r =>
    if skipRow r tc xc then none else some (renderBlock r tc xc)

/-- Modelled from the spec (§4.6): greedily take whole blocks in ranked
order, stopping before the first block whose addition would push the
accumulated total past `max_chars`. -/
def specGreedyBlocks (maxc : ℤ) : ℤ → List String → List String
  | _, [] => []
  | t, b :: rest =>
      if maxc < t + (b.length : ℤ) then []
      else b :: specGreedyBlocks maxc (t + (b.length : ℤ)) rest

/-! ## Build invariant and column filling -/

/-- The invariant every successfully built index satisfies: one matrix row
per corpus row, and (for the embedding backend) each embedding has the
encoder's positive dimension. -/
def builtOk : RagIndex → Prop
  | .tfidf m => m.matrix.length = m.df.rows.length
  | .embeddings e => e.matrix.length = e.df.rows.length ∧ ∀ v ∈ e.matrix, v ≠ []

/-- `df[c] = df[c].fillna("")` applied in place: every missing cell of
column `c` becomes the empty string. -/
def DataFrame.fillnaCol (df : DataFrame) (c : String) : DataFrame :=
  ⟨df.columns, df.rows.map fun r =>
    r.map fun kv => if kv.1 = c then (kv.1, some (kv.2.getD "")) else kv⟩

/-! ## Concrete instances used by counterexamples and witnesses -/

/-- A corpus with the required columns and no rows. -/
def dfEmpty : DataFrame := ⟨["title", "text"], []⟩

/-- A one-row corpus. -/
def rowA : Row := [("title", some "Doc A"), ("text", some "alpha beta")]

/-- A second corpus row with disjoint terms. -/
def rowB : Row := [("title", some "Doc B"), ("text", some "gamma delta")]

/-- A two-row corpus whose two texts share no terms. -/
def dfTwo : DataFrame := ⟨["title", "text"], [rowA, rowB]⟩

/-- A one-row corpus. -/
def dfOne : DataFrame := ⟨["title", "text"], [rowA]⟩

/-- A one-row frame whose single rendered block is exactly 4 characters. -/
def dfBudget : DataFrame := ⟨["title", "text"], [[("title", some "ab"), ("text", some "")]]⟩

/-- A one-row frame with a missing (NaN) title. -/
def dfNan : DataFrame := ⟨["title", "text"], [[("title", none), ("text", some "hello")]]⟩

/-- 96 repetitions of `x`. -/
def xs96 : String := String.mk (List.replicate 96 'x')

/-- The 100-character block `[T]` followed by 96 `x`s. -/
def blockT : String := "[T]\n" ++ xs96

/-- A row rendering to the 100-character block `blockT`. -/
def rowT : Row := [("title", some "T"), ("text", some xs96)]

/-- Three rows of 100-character blocks. -/
def dfThree : DataFrame := ⟨["title", "text"], [rowT, rowT, rowT]⟩

/-- A one-row frame whose single rendered block is 200 characters. -/
def dfOver : DataFrame :=
  ⟨["title", "text"], [[("title", some "T"), ("text", some (xs96 ++ xs96 ++ "xxxx"))]]⟩

/-- An enabled environment with no `RAG_KB_PATH`. -/
def envNoPath : Env := [("RAG_ENABLED", "true")]

/-- An enabled environment pointing at a corpus path. -/
def envOn : Env := [("RAG_ENABLED", "true"), ("RAG_KB_PATH", "kb.csv")]

/-- An enabled environment with a misspelled backend mode. -/
def envMisspelled : Env :=
  [("RAG_ENABLED", "true"), ("RAG_KB_PATH", "kb.csv"), ("RAG_MODE", " EMBEDINGS ")]

/-- A corpus lacking the `title` and `text` columns. -/
def dfNoCols : DataFrame := ⟨["foo"], [[("foo", some "bar")]]⟩

/-- A loader whose every read fails (a corpus path whose read would raise). -/
def loaderBoom : String → Except String DataFrame := fun _ => .error "io error"

/-- A loader serving the two-row corpus. -/
def loaderTwo : String → Except String DataFrame := fun _ => .ok dfTwo

/-- A loader serving the column-less corpus. -/
def loaderNoCols : String → Except String DataFrame := fun _ => .ok dfNoCols

/-- A loader serving the empty corpus. -/
def loaderEmpty : String → Except String DataFrame := fun _ => .ok dfEmpty

/-- A degenerate external encoder. -/
def encode0 : String → List ℝ := fun _ => []

/-- A one-dimensional external encoder. -/
def encode1 : String → List ℝ := fun _ => [1]

/-- A concrete already-built lexical index over `dfOne`. -/
noncomputable def mOne : TfidfModel := ⟨dfOne, "title", "text", ["alpha"], [1], [[1]]⟩

/-- The texts `TfidfIndex.build` extracts from `dfTwo`. -/
def textsTwo : List String := ["alpha beta", "gamma delta"]

/-- The analyzed documents of `dfTwo`. -/
def docsTwo : List (List String) := textsTwo.map tokenize

/-- The fitted vocabulary of `dfTwo`. -/
def vocabTwo : List String := vocabOf docsTwo

/-- The fitted idf weights of `dfTwo`. -/
noncomputable def idfTwo : List ℝ := vocabTwo.map (idfOf textsTwo.length docsTwo)

/-- The fitted tf-idf matrix of `dfTwo`. -/
noncomputable def matTwo : List (List ℝ) :=
  docsTwo.map (fun d => tfidfRow idfTwo (vocabTwo.map (termCount d)))

/-- The lexical index `TfidfIndex.build` produces over `dfTwo`. -/
noncomputable def mTwo : TfidfModel := ⟨dfTwo, "title", "text", vocabTwo, idfTwo, matTwo⟩

/-! # Helper lemmas -/

/-- The running total plus the lengths of the blocks still to be taken
never passes the budget. -/
theorem formatLoop_sum_le (tc xc : String) (maxc : ℤ) :
    ∀ (rows : List Row) (total : ℤ), total ≤ maxc →
      total + ((formatLoop tc xc maxc rows total).map fun b => (b.length : ℤ)).sum ≤ maxc := by
  intro rows
  induction rows with
  | nil => intro total h; simpa [formatLoop] using h
  | cons r rest ih =>
    intro total htot
    rw [formatLoop]
    by_cases hskip : skipRow r tc xc
    · rw [if_pos hskip]; exact ih total htot
    · rw [if_neg hskip]
      by_cases hbr : maxc < total + ((renderBlock r tc xc).length : ℤ)
      · rw [if_pos hbr]; simpa using htot
      · rw [if_neg hbr]
        push_neg at hbr
        have h := ih (total + ((renderBlock r tc xc).length : ℤ)) hbr
        simp only [List.map_cons, List.sum_cons]
        linarith

/-- The loop of `format_rag_context` computes exactly the spec's greedy
budget-bounded prefix of the rendered nonempty blocks. -/
theorem formatLoop_eq_specGreedy (tc xc : String) (maxc : ℤ) :
    ∀ (rows : List Row) (total : ℤ),
      formatLoop tc xc maxc rows total =
        specGreedyBlocks maxc total (rows.filterMap fun r =>
          if skipRow r tc xc then none else some (renderBlock r tc xc)) := by
  intro rows
  induction rows with
  | nil => intro total; simp [formatLoop, specGreedyBlocks]
  | cons r rest ih =>
    intro total
    rw [formatLoop]
    by_cases hskip : skipRow r tc xc
    · rw [if_pos hskip]
      simp only [List.filterMap_cons, if_pos hskip]
      exact ih total
    · rw [if_neg hskip]
      simp only [List.filterMap_cons, if_neg hskip]
      rw [specGreedyBlocks]
      by_cases hbr : maxc < total + ((renderBlock r tc xc).length : ℤ)
      · rw [if_pos hbr, if_pos hbr]
      · rw [if_neg hbr, if_neg hbr, ih]

/-- Looking a column up in a row whose column `c` has been `fillna`-filled
gives the filled value of the original cell. -/
theorem lookup_fillRow (r : Row) (c : String) :
    rowLookup c (r.map fun kv => if kv.1 = c then (kv.1, some (kv.2.getD "")) else kv)
      = (rowLookup c r).map fun cell => some (cell.getD "") := by
  induction r with
  | nil => rfl
  | cons kv rest ih =>
    by_cases h : kv.1 = c
    · simp only [List.map_cons, if_pos h, rowLookup]
      rfl
    · simp only [List.map_cons, if_neg h, rowLookup]
      exact ih

/-- The texts handed to the vectorizer are unchanged when the missing
cells of the text column are first filled with the empty string: indexing
treats a missing value exactly as `""`. -/
theorem safeTextSeries_fillnaCol (df : DataFrame) (xc : String) :
    safeTextSeries ((df.fillnaCol xc).col xc) = safeTextSeries (df.col xc) := by
  simp only [safeTextSeries, DataFrame.col, DataFrame.fillnaCol, List.map_map]
  refine List.map_congr_left fun r _ => ?_
  simp only [Function.comp_apply]
  rw [lookup_fillRow]
  cases rowLookup xc r with
  | none => rfl
  | some cell => rfl

/-! # Claims: the context formatter (C2, C5, C6) -/

/-- Claim C2, counterexample: a single 4-character block fits the
`max_chars = 4` budget, but the returned string also carries the
19-character `"RELEVANT CONTEXT:\n\n"` header, so its length (23) exceeds
`max_chars` — the budget is not a hard bound on the returned string. -/
theorem C2_counterexample :
    ¬ ((format_rag_context dfBudget 4 "title" "text").length ≤ 4) := by decide

/-- Claim C2, amended: the character budget is a hard bound on the
cumulative sum of the lengths of the included blocks (for `max_chars ≥ 0`),
not on the returned string, which additionally contains the header and the
`"\n\n---\n\n"` separators. -/
theorem C2_amended (df : DataFrame) (maxc : ℤ) (tc xc : String) (h : 0 ≤ maxc) :
    ((contextBlocks df maxc tc xc).map fun b => (b.length : ℤ)).sum ≤ maxc := by
  have := formatLoop_sum_le tc xc maxc df.rows 0 h
  simpa [contextBlocks] using this

/-- Claim C2, witness for the amended theorem at the `dfThree` frame with
budget 250. -/
theorem C2_witness :
    (0 : ℤ) ≤ 250 ∧
      ((contextBlocks dfThree 250 "title" "text").map fun b => (b.length : ℤ)).sum ≤ 250 :=
  ⟨by decide, C2_amended dfThree 250 "title" "text" (by decide)⟩

/-- Claim C5, counterexample: a corpus row whose title cell is missing
(NaN) is rendered by `format_rag_context` as the placeholder `"nan"`, not
as the empty string: the formatted context for `dfNan` is
`"RELEVANT CONTEXT:\n\n[nan]\nhello"` and differs from the rendering the
claim prescribes (`"[]\nhello"`). -/
theorem C5_counterexample :
    format_rag_context dfNan 2500 "title" "text" = "RELEVANT CONTEXT:\n\n[nan]\nhello" ∧
      format_rag_context dfNan 2500 "title" "text" ≠ "RELEVANT CONTEXT:\n\n[]\nhello" := by
  constructor <;> decide

/-- Claim C5, amended: missing values are treated as empty strings when
the index is built (`_safe_text_series` fills them before vectorization,
so filling the text column with `""` first changes nothing), and string
rendering never fails; but `format_rag_context` reads the raw stored
cells, and a missing value surfaces there as the `str(nan)` placeholder
`"nan"` rather than the empty string. -/
theorem C5_amended (df : DataFrame) (xc : String) (r : Row) (c : String)
    (h : rowLookup c r = some none) :
    safeTextSeries ((df.fillnaCol xc).col xc) = safeTextSeries (df.col xc) ∧
      Row.getStr r c = "nan" := by
  refine ⟨safeTextSeries_fillnaCol df xc, ?_⟩
  simp [Row.getStr, h, cellStr]

/-- Claim C5, witness for the amended theorem at the `dfNan` frame and its
NaN-titled row. -/
theorem C5_witness :
    rowLookup "title" [(("title" : String), (none : Cell)), ("text", some "hello")] = some none ∧
      (safeTextSeries ((dfNan.fillnaCol "text").col "text") = safeTextSeries (dfNan.col "text") ∧
        Row.getStr [(("title" : String), (none : Cell)), ("text", some "hello")] "title" = "nan") :=
  ⟨by decide, C5_amended dfNan "text" _ "title" (by decide)⟩

set_option maxRecDepth 40000 in
/-- Claim C6: `format_rag_context` accumulates whole rendered blocks in
ranked order and stops before the first block whose addition would exceed
`max_chars` (its loop equals the spec's greedy budget-bounded prefix of
the rendered nonempty blocks); three 100-character blocks under a budget
of 250 yield exactly the first two, and a single 200-character block under
a budget of 50 yields the empty string. -/
theorem C6_format_blocks :
    (∀ (df : DataFrame) (maxc : ℤ) (tc xc : String),
        contextBlocks df maxc tc xc = specGreedyBlocks maxc 0 (allBlocks df tc xc)) ∧
      format_rag_context dfThree 250 "title" "text" =
        "RELEVANT CONTEXT:\n\n" ++ blockT ++ "\n\n---\n\n" ++ blockT ∧
      format_rag_context dfOver 50 "title" "text" = "" := by
  refine ⟨fun df maxc tc xc => formatLoop_eq_specGreedy tc xc maxc df.rows 0, ?_, ?_⟩
  · decide
  · decide

/-! # Claims: index construction and startup (C4, C8, C9, C10) -/

/-- Claim C4, counterexample: with retrieval enabled and the corpus path
unset, `build_index_from_env` does fail — but the pipeline's module-level
initializer catches the exception and continues with `RAG_INDEX = None`:
the failure is not fatal and retrieval is silently treated as disabled. -/
theorem C4_counterexample :
    build_index_from_env envNoPath encode0 loaderBoom = .error "RAG_KB_PATH not set" ∧
      ragStartupIndex envNoPath encode0 loaderBoom = none :=
  ⟨rfl, rfl⟩

/-- Claim C4, amended: every index-construction failure raises out of
`build_index_from_env`, but the pipeline's module-level `try/except`
catches it, logs a warning, and binds `RAG_INDEX` to `None` — the process
continues with retrieval silently disabled (no partial index is kept:
the binding is exactly `None`). -/
theorem C4_amended (env : Env) (encode : String → List ℝ)
    (loader : String → Except String DataFrame) (err : String)
    (h : build_index_from_env env encode loader = .error err) :
    ragStartupIndex env encode loader = none := by
  simp [ragStartupIndex, h]

/-- Claim C4, witness for the amended theorem at the enabled,
path-less environment. -/
theorem C4_witness :
    build_index_from_env envNoPath encode1 loaderBoom = .error "RAG_KB_PATH not set" ∧
      ragStartupIndex envNoPath encode1 loaderBoom = none :=
  ⟨rfl, C4_amended envNoPath encode1 loaderBoom "RAG_KB_PATH not set" rfl⟩

/-- Claim C8: when `RAG_ENABLED` is falsey, `build_index_from_env`
returns `None` for every loader and encoder — in particular for a loader
whose every read fails, so the corpus path is never touched and no model
is loaded. -/
theorem C8_disabled (env : Env) (encode : String → List ℝ)
    (loader : String → Except String DataFrame)
    (h : truthy ((getenv env "RAG_ENABLED").getD "false") = false) :
    build_index_from_env env encode loader = .ok none := by
  simp [build_index_from_env, h]

/-- Claim C8, witness: the empty environment with the always-failing
loader. -/
theorem C8_witness :
    truthy ((getenv [] "RAG_ENABLED").getD "false") = false ∧
      build_index_from_env [] encode0 loaderBoom = .ok none :=
  ⟨by decide, C8_disabled [] encode0 loaderBoom (by decide)⟩

/-- Claim C9: with retrieval enabled, a missing (or empty, which Python
treats as falsey) corpus path fails with the configuration error
`"RAG_KB_PATH not set"`, and a loaded table lacking the configured title
or text column fails with the `"KB must contain columns"` error; neither
case returns an index. -/
theorem C9_config_errors (env : Env) (encode : String → List ℝ)
    (loader : String → Except String DataFrame)
    (henabled : truthy ((getenv env "RAG_ENABLED").getD "false") = true) :
    ((getenv env "RAG_KB_PATH" = none ∨ getenv env "RAG_KB_PATH" = some "") →
        build_index_from_env env encode loader = .error "RAG_KB_PATH not set") ∧
      (∀ (p : String) (df : DataFrame), getenv env "RAG_KB_PATH" = some p → p ≠ "" →
        loader p = .ok df →
        (titleColOf env ∉ df.columns ∨ textColOf env ∉ df.columns) →
        build_index_from_env env encode loader =
          .error ("KB must contain columns: " ++ titleColOf env ++ ", " ++ textColOf env)) := by
  constructor
  · rintro (hp | hp) <;> simp [build_index_from_env, henabled, hp]
  · intro p df hp hne hl hcols
    have hcontains :
        (!(df.columns.contains (titleColOf env)) || !(df.columns.contains (textColOf env))) = true := by
      rcases hcols with hc | hc <;> simp [List.contains, List.elem_eq_mem, hc]
    simp only [build_index_from_env, henabled, Bool.not_true, Bool.false_eq_true, if_false,
      hp, hl]
    rw [if_neg hne, if_pos hcontains]

/-- Claim C9, witness: the enabled path-less environment, and the enabled
environment whose loader serves a table without the required columns. -/
theorem C9_witness :
    (truthy ((getenv envNoPath "RAG_ENABLED").getD "false") = true ∧
      build_index_from_env envNoPath encode0 loaderBoom = .error "RAG_KB_PATH not set") ∧
      (truthy ((getenv envOn "RAG_ENABLED").getD "false") = true ∧
        build_index_from_env envOn encode0 loaderNoCols =
          .error ("KB must contain columns: " ++ titleColOf envOn ++ ", " ++ textColOf envOn)) := by
  constructor
  · exact ⟨by decide,
      (C9_config_errors envNoPath encode0 loaderBoom (by decide)).1 (Or.inl (by decide))⟩
  · exact ⟨by decide,
      (C9_config_errors envOn encode0 loaderNoCols (by decide)).2 "kb.csv" dfNoCols
        (by decide) (by decide) rfl (Or.inl (by decide))⟩

/-- Claim C10: with retrieval enabled and a loadable corpus carrying the
required columns, every backend-mode string whose stripped lowercase form
is not exactly `"embeddings"` selects the lexical TF-IDF backend — the
build result is exactly the TF-IDF branch, and no error is raised on
account of the invalid mode value. -/
theorem C10_unknown_mode (env : Env) (encode : String → List ℝ)
    (loader : String → Except String DataFrame) (p : String) (df : DataFrame)
    (henabled : truthy ((getenv env "RAG_ENABLED").getD "false") = true)
    (hp : getenv env "RAG_KB_PATH" = some p) (hne : p ≠ "")
    (hl : loader p = .ok df)
    (ht : titleColOf env ∈ df.columns) (hx : textColOf env ∈ df.columns)
    (hm : modeOf env ≠ "embeddings") :
    build_index_from_env env encode loader =
      (TfidfIndex.build df (titleColOf env) (textColOf env)).map fun m =>
        some (.tfidf m) := by
  have hcontains :
      (!(df.columns.contains (titleColOf env)) || !(df.columns.contains (textColOf env))) = false := by
    simp [List.contains, List.elem_eq_mem, ht, hx]
  simp only [build_index_from_env, henabled, Bool.not_true, Bool.false_eq_true, if_false,
    hp, hl]
  rw [if_neg hne, if_neg (by rw [hcontains]; exact Bool.false_ne_true), if_neg hm]

/-- Claim C10, witness: the enabled environment with the misspelled mode
`" EMBEDINGS "` and the two-row corpus selects the TF-IDF branch. -/
theorem C10_witness :
    (truthy ((getenv envMisspelled "RAG_ENABLED").getD "false") = true ∧
        getenv envMisspelled "RAG_KB_PATH" = some "kb.csv" ∧ "kb.csv" ≠ "" ∧
        loaderTwo "kb.csv" = .ok dfTwo ∧
        titleColOf envMisspelled ∈ dfTwo.columns ∧
        textColOf envMisspelled ∈ dfTwo.columns ∧
        modeOf envMisspelled ≠ "embeddings") ∧
      build_index_from_env envMisspelled encode0 loaderTwo =
        (TfidfIndex.build dfTwo (titleColOf envMisspelled) (textColOf envMisspelled)).map
          fun m => some (.tfidf m) :=
  ⟨⟨by decide, by decide, by decide, rfl, by decide, by decide, by decide⟩,
    C10_unknown_mode envMisspelled encode0 loaderTwo "kb.csv" dfTwo
      (by decide) (by decide) (by decide) rfl (by decide) (by decide) (by decide)⟩

/-! # Helper lemmas: the ranking pipeline -/

/-- Weighting an all-zero count vector gives an all-zero vector. -/
theorem zipWith_counts_nil_zero (vocab : List String) (idf : List ℝ) :
    ∀ x ∈ List.zipWith (fun (c : ℕ) (w : ℝ) => (c : ℝ) * w)
        (vocab.map (termCount ([] : List String))) idf, x = 0 := by
  induction vocab generalizing idf with
  | nil => simp
  | cons a t ih =>
    cases idf with
    | nil => simp
    | cons w ws =>
      intro x hx
      rcases List.mem_cons.1 hx with rfl | hx
      · simp [termCount]
      · exact ih ws x hx

/-- l2 normalization maps an all-zero vector to an all-zero vector
(either branch of the zero-norm guard). -/
theorem l2normalize_zeros {v : List ℝ} (h : ∀ x ∈ v, x = 0) :
    ∀ x ∈ l2normalize v, x = 0 := by
  intro x hx
  simp only [l2normalize] at hx
  split at hx
  · exact h x hx
  · rcases List.mem_map.1 hx with ⟨y, hy, rfl⟩
    rw [h y hy, zero_div]

/-- The dot product with an all-zero left vector is zero. -/
theorem dot_zeros_left {u : List ℝ} (v : List ℝ) (h : ∀ x ∈ u, x = 0) :
    dot u v = 0 := by
  unfold dot
  induction u generalizing v with
  | nil => simp
  | cons a t ih =>
    cases v with
    | nil => simp
    | cons b bs =>
      simp only [List.zipWith_cons_cons, List.sum_cons]
      rw [h a (List.mem_cons_self a t), zero_mul, zero_add]
      exact ih bs fun x hx => h x (List.mem_cons_of_mem a hx)

/-- Cosine similarity against an all-zero query vector is zero (sklearn's
zero-safe normalization keeps the zero vector, and its dot product
vanishes). -/
theorem cosineSim_zeros_left {u : List ℝ} (v : List ℝ) (h : ∀ x ∈ u, x = 0) :
    cosineSim u v = 0 :=
  dot_zeros_left _ (l2normalize_zeros h)

/-- A query with no analyzed tokens has an all-zero tf-idf vector, so
every similarity `TfidfIndex.retrieve` computes for it is zero. -/
theorem sims_zeros (m : TfidfModel) (q : String) (h : tokenize q = []) :
    ∀ x ∈ m.sims q, x = 0 := by
  intro x hx
  rcases List.mem_map.1 hx with ⟨row, _, rfl⟩
  apply cosineSim_zeros_left
  apply l2normalize_zeros
  rw [h]
  exact zipWith_counts_nil_zero m.vocab m.idf

/-- Positional access into an all-zero score list is zero (in or out of
range, since the default is zero too). -/
theorem getD_zeros {s : List ℝ} (h : ∀ x ∈ s, x = 0) (i : ℕ) : s.getD i 0 = 0 := by
  by_cases hi : i < s.length
  · rw [List.getD_eq_getElem s 0 hi]
    exact h _ (List.getElem_mem hi)
  · exact List.getD_eq_default s 0 (Nat.le_of_not_lt hi)

/-- `argsort` permutes the index range of the score list. -/
theorem argsort_perm (s : List ℝ) : (argsort s).Perm (List.range s.length) :=
  List.mergeSort_perm _ _

/-- `argsort` has one entry per score. -/
theorem argsort_length (s : List ℝ) : (argsort s).length = s.length := by
  simpa using (argsort_perm s).length_eq

/-- Every `argsort` entry is a valid position. -/
theorem argsort_mem_lt (s : List ℝ) {i : ℕ} (h : i ∈ argsort s) : i < s.length :=
  List.mem_range.1 ((argsort_perm s).mem_iff.mp h)

/-- `argsort` orders positions by ascending score. -/
theorem argsort_sorted (s : List ℝ) :
    (argsort s).Pairwise (fun i j => s.getD i 0 ≤ s.getD j 0) := by
  unfold argsort
  have htrans : ∀ (a b c : ℕ), decide (s.getD a 0 ≤ s.getD b 0) = true →
      decide (s.getD b 0 ≤ s.getD c 0) = true →
      decide (s.getD a 0 ≤ s.getD c 0) = true := fun a b c hab hbc => by
    simp only [decide_eq_true_eq] at *
    exact le_trans hab hbc
  have htotal : ∀ (a b : ℕ),
      (decide (s.getD a 0 ≤ s.getD b 0) || decide (s.getD b 0 ≤ s.getD a 0)) = true :=
    fun a b => by
      simp only [Bool.or_eq_true, decide_eq_true_eq]
      exact le_total _ _
  have h := List.sorted_mergeSort htrans htotal (List.range s.length)
  exact h.imp fun hab => of_decide_eq_true hab

/-- On an all-equal (all-zero) score list the stable ascending argsort is
the identity permutation: ties keep their original positions. -/
theorem argsort_zeros {s : List ℝ} (h : ∀ x ∈ s, x = 0) :
    argsort s = List.range s.length := by
  apply List.mergeSort_of_sorted
  have hrel : ∀ i j : ℕ, decide (s.getD i 0 ≤ s.getD j 0) = true := fun i j => by
    simp only [getD_zeros h, decide_eq_true_eq]
    exact le_refl 0
  have hpair : ∀ l : List ℕ, l.Pairwise fun i j => decide (s.getD i 0 ≤ s.getD j 0) = true := by
    intro l
    induction l with
    | nil => exact .nil
    | cons a t ih => exact .cons (fun j _ => hrel a j) ih
  exact hpair (List.range s.length)

/-- The assembled result has `min top_k N` rows. -/
theorem rankRetrieve_length (df : DataFrame) (s : List ℝ) (k : ℕ) :
    (rankRetrieve df s k).length = min k s.length := by
  simp [rankRetrieve, argsort_length]

/-- The `kb_id` column is exactly the reversed argsort cut to `top_k`. -/
theorem rankRetrieve_map_kb (df : DataFrame) (s : List ℝ) (k : ℕ) :
    (rankRetrieve df s k).map (fun r => r.kb_id) = (argsort s).reverse.take k := by
  simp only [rankRetrieve, List.map_map]
  have hcomp : ((fun r : RetrievedRow => r.kb_id) ∘ fun i =>
      (⟨df.rows.getD i [], s.getD i 0, i⟩ : RetrievedRow)) = fun i => i := rfl
  rw [hcomp, List.map_id']

/-- The `similarity` column is non-increasing. -/
theorem rankRetrieve_sorted (df : DataFrame) (s : List ℝ) (k : ℕ) :
    ((rankRetrieve df s k).map (fun r => r.similarity)).Pairwise (· ≥ ·) := by
  unfold rankRetrieve
  rw [List.map_map, List.pairwise_map]
  apply List.Pairwise.sublist (List.take_sublist _ _)
  rw [List.pairwise_reverse]
  exact argsort_sorted s

/-- Every returned row carries a valid corpus position, the corpus row at
that position, and its score. -/
theorem rankRetrieve_mem (df : DataFrame) (s : List ℝ) (k : ℕ) :
    ∀ r ∈ rankRetrieve df s k,
      r.kb_id < s.length ∧ r.row = df.rows.getD r.kb_id [] ∧ r.similarity = s.getD r.kb_id 0 := by
  intro r hr
  rcases List.mem_map.1 hr with ⟨i, hi, rfl⟩
  have hmem : i ∈ argsort s :=
    List.mem_reverse.1 (List.mem_of_mem_take hi)
  exact ⟨argsort_mem_lt s hmem, rfl, rfl⟩

/-- A matrix of nonempty rows has zero size exactly when it has no rows. -/
theorem matSize_zero {m : List (List ℝ)} (h : ∀ v ∈ m, v ≠ []) :
    matSize m = 0 ↔ m = [] := by
  cases m with
  | nil => simp [matSize]
  | cons v rest =>
    simp only [matSize, List.map_cons, List.sum_cons]
    constructor
    · intro h0
      have hv : v.length = 0 := by omega
      exact absurd (List.length_eq_zero.1 hv) (h v (List.mem_cons_self v rest))
    · intro h0
      exact absurd h0 (List.cons_ne_nil v rest)

/-! # Claims: retrieval ranking (C1, C3, C7) -/

set_option maxRecDepth 100000 in
/-- Claim C1, counterexample: over the two-row corpus `dfTwo`, the built
lexical index retrieves the empty query's (all-tied, all-zero) results in
reverse corpus order — `kb_id`s `[1, 0]`, not the claimed first-`top_k`
original order `[0, 1]` — because the code reverses an ascending argsort. -/
theorem C1_counterexample :
    (TfidfIndex.build dfTwo "title" "text").map
        (fun m => (m.retrieve "" 2).map fun r => r.kb_id) = .ok [1, 0] ∧
      ([1, 0] : List ℕ) ≠ [0, 1] := by
  constructor
  · have hbuild : TfidfIndex.build dfTwo "title" "text" = .ok mTwo := rfl
    rw [hbuild]
    have h1 : (mTwo.retrieve "" 2).map (fun r => r.kb_id) = [1, 0] := by
      rw [show mTwo.retrieve "" 2 = rankRetrieve mTwo.df (mTwo.sims "") 2 from rfl,
        rankRetrieve_map_kb, argsort_zeros (sims_zeros mTwo "" rfl),
        show (mTwo.sims "").length = 2 from rfl]
      rfl
    rw [show Except.map (fun m : TfidfModel => (m.retrieve "" 2).map fun r => r.kb_id)
        (Except.ok mTwo) = .ok ((mTwo.retrieve "" 2).map fun r => r.kb_id) from rfl, h1]
  · decide

/-- Claim C1, amended: `retrieve` gives no original-order guarantee on
ties — the code reverses an ascending `np.argsort`, whose tie order NumPy
fixes only on its small-array insertion-sort path (where it is stable, so
ties come back in reverse corpus order, as the 2-row counterexample
exhibits on the program itself); for larger arrays the default quicksort's
tie order is unspecified. This theorem settles the claim's empty-query
clause for every built lexical index: the empty query analyzes to no
tokens, every similarity is 0.0, and — with the argsort tie behaviour
modelled as stable ascending, faithful to the small-array regime — the
`kb_id`s are the last `min(top_k, N)` corpus positions in reverse corpus
order, each row scored 0.0. -/
theorem C1_amended (m : TfidfModel) (k : ℕ) :
    (∀ x ∈ m.sims "", x = 0) ∧
      (m.retrieve "" k).map (fun r => r.kb_id) =
        (List.range m.matrix.length).reverse.take k ∧
      ∀ r ∈ m.retrieve "" k, r.similarity = 0 := by
  have hz := sims_zeros m "" rfl
  have hlen : (m.sims "").length = m.matrix.length := by
    simp [TfidfModel.sims]
  refine ⟨hz, ?_, ?_⟩
  · rw [show m.retrieve "" k = rankRetrieve m.df (m.sims "") k from rfl,
      rankRetrieve_map_kb, argsort_zeros hz, hlen]
  · intro r hr
    have hm := (rankRetrieve_mem m.df (m.sims "") k r hr).2.2
    rw [hm, getD_zeros hz]

/-- Claim C3, counterexample: building the lexical index over a zero-row
corpus does not succeed — fitting the vectorizer on an empty text list
raises sklearn's empty-vocabulary `ValueError`. -/
theorem C3_counterexample :
    TfidfIndex.build dfEmpty "title" "text" =
      .error "empty vocabulary; perhaps the documents only contain stop words" := rfl

/-- Claim C3, amended: over a zero-row corpus the embedding backend builds
successfully and every `retrieve` returns an empty result without error,
while the lexical backend fails at build time with sklearn's
empty-vocabulary error (no index is produced). -/
theorem C3_amended (df : DataFrame) (tc xc : String) (encode : String → List ℝ)
    (q : String) (k : ℕ) (h : df.rows = []) :
    (EmbIndex.build df tc xc encode).retrieve q k = [] ∧
      TfidfIndex.build df tc xc =
        .error "empty vocabulary; perhaps the documents only contain stop words" := by
  have hcol : df.col xc = [] := by simp [DataFrame.col, h]
  constructor
  · simp [EmbIndex.retrieve, EmbIndex.build, hcol, safeTextSeries, matSize]
  · simp [TfidfIndex.build, hcol, safeTextSeries, tfidfFit, vocabOf, sortStrings, Except.map]

/-- Claim C3, witness for the amended theorem at the zero-row frame. -/
theorem C3_witness :
    dfEmpty.rows = [] ∧
      ((EmbIndex.build dfEmpty "title" "text" encode1).retrieve "q" 3 = [] ∧
        TfidfIndex.build dfEmpty "title" "text" =
          .error "empty vocabulary; perhaps the documents only contain stop words") :=
  ⟨rfl, C3_amended dfEmpty "title" "text" encode1 "q" 3 rfl⟩

/-- Claim C7: for every built index (either backend) and every query,
`retrieve(query, top_k)` returns exactly `min(top_k, N)` rows, sorted by
non-increasing similarity, each carrying as `kb_id` a valid corpus
position whose corpus row it is. -/
theorem C7_retrieve_shape (idx : RagIndex) (q : String) (k : ℕ) (h : builtOk idx) :
    (idx.retrieve q k).length = min k idx.corpus.rows.length ∧
      ((idx.retrieve q k).map fun r => r.similarity).Pairwise (· ≥ ·) ∧
      ∀ r ∈ idx.retrieve q k, r.kb_id < idx.corpus.rows.length ∧
        r.row = idx.corpus.rows.getD r.kb_id [] := by
  cases idx with
  | tfidf m =>
    have h' : m.matrix.length = m.df.rows.length := h
    have hlen : (m.sims q).length = m.df.rows.length := by
      simpa [TfidfModel.sims] using h'
    refine ⟨?_, rankRetrieve_sorted _ _ _, ?_⟩
    · rw [show (RagIndex.tfidf m).retrieve q k = rankRetrieve m.df (m.sims q) k from rfl,
        rankRetrieve_length, hlen]
      rfl
    · intro r hr
      have hm := rankRetrieve_mem m.df (m.sims q) k r hr
      exact ⟨hlen ▸ hm.1, hm.2.1⟩
  | embeddings e =>
    have h' : e.matrix.length = e.df.rows.length ∧ ∀ v ∈ e.matrix, v ≠ [] := h
    obtain ⟨hlen, hdim⟩ := h'
    by_cases hz : matSize e.matrix = 0
    · have hmat : e.matrix = [] := (matSize_zero hdim).1 hz
      have hrows : e.df.rows.length = 0 := by rw [← hlen, hmat]; rfl
      rw [show (RagIndex.embeddings e).retrieve q k = e.retrieve q k from rfl]
      unfold EmbIndex.retrieve
      rw [if_pos hz]
      exact ⟨by simp [RagIndex.corpus, hrows], List.Pairwise.nil,
        fun r hr => absurd hr (List.not_mem_nil r)⟩
    · have hslen : (e.matrix.map fun row => dot row (e.encode q)).length = e.df.rows.length := by
        simpa using hlen
      rw [show (RagIndex.embeddings e).retrieve q k = e.retrieve q k from rfl]
      unfold EmbIndex.retrieve
      rw [if_neg hz]
      refine ⟨?_, rankRetrieve_sorted _ _ _, ?_⟩
      · rw [rankRetrieve_length, hslen]
        rfl
      · intro r hr
        have hm := rankRetrieve_mem _ _ _ r hr
        exact ⟨hslen ▸ hm.1, hm.2.1⟩

/-- Claim C7, witness at the built one-row lexical index `mOne`. -/
theorem C7_witness :
    builtOk (RagIndex.tfidf mOne) ∧
      (((RagIndex.tfidf mOne).retrieve "q" 3).length =
          min 3 (RagIndex.tfidf mOne).corpus.rows.length ∧
        (((RagIndex.tfidf mOne).retrieve "q" 3).map fun r => r.similarity).Pairwise (· ≥ ·) ∧
        ∀ r ∈ (RagIndex.tfidf mOne).retrieve "q" 3,
          r.kb_id < (RagIndex.tfidf mOne).corpus.rows.length ∧
          r.row = (RagIndex.tfidf mOne).corpus.rows.getD r.kb_id []) :=
  ⟨rfl, C7_retrieve_shape (RagIndex.tfidf mOne) "q" 3 rfl⟩

end RagSpec
